import Mathlib

/-!
Shallow embedding of the impersonated ID-token credential provider
(package `impersonate`) and of the generated fleet-engine iterator glue
(package `delivery`), with theorems checking the specification claims.

Conventions of the embedding:
- Go `error` values are `String` messages; fallible Go functions return
  `Except String α` (or `Option String` for `validate`-style methods).
- `time.Time` is modelled as `Nat` (seconds); `time.Now()` is an explicit
  `now` parameter sampled where the source calls it.
- An HTTP response body (a byte slice in Go) is modelled as its raw text
  together with the result of the syntactic JSON parse that
  `encoding/json` would perform on it (`none` when the bytes are not
  valid JSON). The untyped JSON tree is `JValue`; the typed
  decode into the response struct is embedded below, following the
  semantics of `encoding/json` for a struct with a single string field.
- The HTTP client, the base credentials, and the collaborator calls
  `credentials.DetectDefault` / `httptransport.NewClient` are external
  services; they enter the embedding as abstract values and as an
  explicit `ConstructionEnv` recording their outcomes.
- The `slog.Logger` debug logging is omitted: it has no effect on any
  value the claims mention.
-/

namespace Impersonate

/-- Untyped JSON value, the target of the syntactic parse performed by
the Go standard library on a response body. -/
inductive JValue where
  | nul
  | bool (b : Bool)
  | num (n : Int)
  | str (s : String)
  | arr (elems : List JValue)
  | obj (fields : List (String × JValue))

/-- Base credentials (`*auth.Credentials` supplied or detected); only the
universe domain is observable to this code. -/
structure BaseCredentials where
  universeDomain : String
deriving DecidableEq

/-- An authenticated HTTP client (`*http.Client`); opaque to this code,
identified by an id. -/
structure HTTPClient where
  id : Nat
deriving DecidableEq

/-- IDTokenOptions for generating an impersonated ID token
(source lines 35-65). `Logger` is omitted (no behavioral effect). -/
structure IDTokenOptions where
  Audience : String
  TargetPrincipal : String
  IncludeEmail : Bool
  Delegates : List String
  Credentials : Option BaseCredentials
  Client : Option HTTPClient
deriving DecidableEq

/-- Method `(o *IDTokenOptions) validate() error` (source lines 67-78).
The receiver is a Go pointer, so the argument is an `Option`; the nil
check comes first, before any field access. -/
def IDTokenOptions.validate : Option IDTokenOptions → Option String
  | none => some "impersonate: options must be provided"
  | some o =>
    if o.Audience = "" then some "impersonate: audience must be provided"
    else if o.TargetPrincipal = "" then
      some "impersonate: target service account must be provided"
    else none

/-- Splits a character list at every slash; the accumulator carries the
current segment reversed. Character-level counterpart of splitting a
string on `/`, written with structural recursion so that it evaluates
inside the kernel. -/
def splitSlashes : List Char → List Char → List (List Char)
  | [], acc => [acc.reverse]
  | c :: rest, acc =>
    if c = '/' then acc.reverse :: splitSlashes rest []
    else splitSlashes rest (c :: acc)

/-- Modelled from the spec: the fully-qualified service-account resource
pattern `projects/<project>/serviceAccounts/<identity>`. The predicate
backing the name-formatting rule is not part of the sources under
review (only its callers are), so it follows the words of the spec. -/
def matchesServiceAccountResourcePattern (s : String) : Bool :=
  match splitSlashes s.data [] with
  | seg1 :: project :: seg3 :: rest =>
      (seg1 == "projects".data) && (seg3 == "serviceAccounts".data)
        && !project.isEmpty && !rest.isEmpty
  | _ => false

/-- Modelled from the spec: `formatIAMServiceAccountName` is called by the
sources under review but defined elsewhere in the repository. Per the
spec, if the given identity string already matches the fully-qualified
resource pattern it is used unchanged; otherwise it is wrapped as the
canonical `projects / - / serviceAccounts / <identity>` resource name
(written without the spaces; spelled out in the definition body). -/
def formatIAMServiceAccountName (name : String) : String :=
  if matchesServiceAccountResourcePattern name then name
  else "projects/-/serviceAccounts/" ++ name

/-- Modelled from the spec: the fixed IAM-credentials service root
referenced by the sources under review but defined elsewhere in the
repository. -/
def iamCredentialsEndpoint : String := "https://iamcredentials.googleapis.com"

/-- Request shape (source lines 140-144): `audience`, `includeEmail`,
`delegates` with the `omitempty` JSON option. -/
structure generateIDTokenRequest where
  Audience : String
  IncludeEmail : Bool
  Delegates : List String
deriving DecidableEq

/-- Response shape (source lines 146-148): a single `token` field. -/
structure generateIDTokenResponse where
  Token : String
deriving DecidableEq

/-- JSON marshalling of `generateIDTokenRequest` by `encoding/json`:
fields appear in struct order under their tag names; `omitempty` drops
the `delegates` member when the slice is empty or nil. -/
def generateIDTokenRequest.marshal (r : generateIDTokenRequest) :
    List (String × JValue) :=
  [("audience", JValue.str r.Audience), ("includeEmail", JValue.bool r.IncludeEmail)]
    ++ (if r.Delegates.isEmpty then []
        else [("delegates", JValue.arr (r.Delegates.map JValue.str))])

/-- Character-level case folding of a member key, the ASCII case
folding `encoding/json` uses when matching JSON member names to struct
field tags. -/
def foldKey (k : String) : List Char :=
  k.data.map Char.toLower

/-- Folds the members of a JSON object into the `token` field, following
`encoding/json` struct decoding: keys are matched to the `token` tag
case-insensitively, later members overwrite earlier ones, a JSON null
member leaves the field unchanged, and a member of any other non-string
type is a decode error (`none`). -/
def decodeTokenFields : List (String × JValue) → String → Option String
  | [], acc => some acc
  | (k, v) :: rest, acc =>
    if foldKey k = foldKey "token" then
      match v with
      | JValue.str s => decodeTokenFields rest s
      | JValue.nul => decodeTokenFields rest acc
      | _ => none
    else decodeTokenFields rest acc

/-- Semantics of `json.Unmarshal(body, &generateIDTokenResponse)`:
fails when the body is not valid JSON (`none` input) or its top-level
value is neither an object nor null; a top-level null or an object
without a `token` member succeeds and leaves the zero value `""`. -/
def unmarshalGenerateIDTokenResponse : Option JValue → Option generateIDTokenResponse
  | none => none
  | some JValue.nul => some { Token := "" }
  | some (JValue.obj fields) =>
      (decodeTokenFields fields "").map (fun t => { Token := t })
  | some _ => none

/-- Provider state (source lines 150-158); the logger is omitted. -/
structure impersonatedIDTokenProvider where
  client : HTTPClient
  targetPrincipal : String
  audience : String
  includeEmail : Bool
  delegates : List String
deriving DecidableEq

/-- The outbound HTTP request assembled by `Token` before it is handed
to the transport. -/
structure OutboundRequest where
  method : String
  url : String
  contentType : String
  body : List (String × JValue)

/-- Request assembly inside `Token` (source lines 161-176): the JSON
body from the provider fields, a POST to
`<endpoint>/v1/<formatted target principal>:generateIdToken`, and the
`Content-Type: application/json` header. Note that
`formatIAMServiceAccountName` is applied to the stored target principal
here, on every call. -/
def impersonatedIDTokenProvider.buildRequest (i : impersonatedIDTokenProvider) :
    OutboundRequest :=
  { method := "POST"
    url := iamCredentialsEndpoint ++ "/v1/"
        ++ formatIAMServiceAccountName i.targetPrincipal ++ ":generateIdToken"
    contentType := "application/json"
    body := generateIDTokenRequest.marshal
      { Audience := i.audience, IncludeEmail := i.includeEmail, Delegates := i.delegates } }

/-- The observable outcome of `internal.DoRequest`: the status code, the
raw body text, and the syntactic JSON parse of that body (`none` when
the body is not valid JSON). -/
structure HTTPResponse where
  statusCode : Nat
  rawBody : String
  parsedBody : Option JValue

/-- `auth.Token` as observable here: the bearer value and the absolute
expiry (seconds). -/
structure AuthToken where
  Value : String
  Expiry : Nat
deriving DecidableEq

/-- Method `Token` of the provider (source lines 160-196). `transport`
is the behavior of `internal.DoRequest` with the authenticated client:
it answers the assembled outbound request with a status, a raw body and
the syntactic JSON parse of that body, or fails; `now` is `time.Now()`
sampled when the successful result is assembled. The text of the cause
wrapped into the decode-error message is abstracted away. Marshalling
of the request struct cannot fail for these field types, so that error
path (source lines 166-169) is vacuous. -/
def impersonatedIDTokenProvider.Token (i : impersonatedIDTokenProvider)
    (transport : OutboundRequest → Except String HTTPResponse) (now : Nat) :
    Except String AuthToken :=
  match transport i.buildRequest with
  | Except.error e => Except.error ("impersonate: unable to generate ID token: " ++ e)
  | Except.ok resp =>
    if resp.statusCode < 200 ∨ resp.statusCode > 299 then
      Except.error ("impersonate: status code " ++ toString resp.statusCode
        ++ ": " ++ resp.rawBody)
    else
      match unmarshalGenerateIDTokenResponse resp.parsedBody with
      | none => Except.error "impersonate: unable to parse response"
      | some r => Except.ok { Value := r.Token, Expiry := now + 3600 }

/-- Outcomes of the collaborator calls made during construction:
`credentials.DetectDefault` and `httptransport.NewClient`. -/
structure ConstructionEnv where
  detectDefault : Except String BaseCredentials
  newClient : BaseCredentials → Except String HTTPClient

/-- The credential returned by `NewIDTokenCredentials`: the provider
(wrapped by the external `auth.NewCachedTokenProvider`, which adds no
observable field) and the universe-domain property delegated to the
base credentials when present. -/
structure Credentials where
  tokenProvider : impersonatedIDTokenProvider
  universeDomainProvider : Option String

/-- Provider assembly (source lines 119-128): the target principal,
audience and include-email flag are stored as configured, while each
delegate is passed through `formatIAMServiceAccountName` (in order)
before being stored. -/
def mkProvider (o : IDTokenOptions) (client : HTTPClient) :
    impersonatedIDTokenProvider :=
  { client := client
    targetPrincipal := o.TargetPrincipal
    audience := o.Audience
    includeEmail := o.IncludeEmail
    delegates := o.Delegates.map formatIAMServiceAccountName }

/-- Client resolution (source lines 94-117): use the configured client
when present; otherwise detect default credentials when none were
configured, then build an authenticated client. Returns the client
together with the base credentials in scope afterwards (`creds`). -/
def resolveClient (env : ConstructionEnv) (o : IDTokenOptions) :
    Except String (HTTPClient × Option BaseCredentials) :=
  match o.Client with
  | some c => Except.ok (c, o.Credentials)
  | none =>
    match o.Credentials with
    | some cr =>
      match env.newClient cr with
      | Except.error e => Except.error e
      | Except.ok cl => Except.ok (cl, some cr)
    | none =>
      match env.detectDefault with
      | Except.error e => Except.error e
      | Except.ok cr =>
        match env.newClient cr with
        | Except.error e => Except.error e
        | Except.ok cl => Except.ok (cl, some cr)

/-- `NewIDTokenCredentials` (source lines 89-138): validate, resolve a
client, assemble the provider, and wrap it into a credential whose
universe-domain property comes from the base credentials when present.
The `none, none` arm is unreachable because `validate none` is an
error; it repeats the same error. -/
def NewIDTokenCredentials (env : ConstructionEnv) (opts : Option IDTokenOptions) :
    Except String Credentials :=
  match IDTokenOptions.validate opts, opts with
  | some e, _ => Except.error e
  | none, none => Except.error "impersonate: options must be provided"
  | none, some o =>
    match resolveClient env o with
    | Except.error e => Except.error e
    | Except.ok (client, creds) =>
      Except.ok { tokenProvider := mkProvider o client
                  universeDomainProvider := creds.map BaseCredentials.universeDomain }

/-- Follows the words of the spec, for comparison with the code: the
expected JSON shape `\x7btoken: string\x7d`, read as an object whose
`token` member is a string. -/
def matchesSpecTokenShape : JValue → Bool
  | JValue.obj fields =>
    match fields.lookup "token" with
    | some (JValue.str _) => true
    | _ => false
  | _ => false

end Impersonate

namespace Delivery

/-- Opaque list item `*deliverypb.DeliveryVehicle`. -/
structure DeliveryVehicle where
  name : String
deriving DecidableEq

/-- Opaque list item `*deliverypb.Task`. -/
structure Task where
  name : String
deriving DecidableEq

/-- Mutable state of `DeliveryVehicleIterator` observable to `Next`: the
buffered items. -/
structure DeliveryVehicleIterator where
  items : List DeliveryVehicle
deriving DecidableEq

/-- Mutable state of `TaskIterator` observable to `Next`. -/
structure TaskIterator where
  items : List Task
deriving DecidableEq

/-- Result of a `Next` call: an item, an error from `nextFunc`, or the
runtime fault raised by indexing `items[0]` on an empty slice. -/
inductive NextOutcome (α : Type) where
  | ok (item : α)
  | err (e : String)
  | indexOutOfRange
deriving DecidableEq

/-- `DeliveryVehicleIterator.Next` (auxiliary.go lines 51-59).
`nextFunc` is a closure mutating the iterator, modelled as a state
transformer returning the new state and an optional error; when it
returns nil the code indexes `items[0]` unconditionally and keeps the
tail, faulting if the buffer is empty. -/
def DeliveryVehicleIterator.Next
    (nextFunc : DeliveryVehicleIterator → DeliveryVehicleIterator × Option String)
    (it : DeliveryVehicleIterator) :
    NextOutcome DeliveryVehicle × DeliveryVehicleIterator :=
  match nextFunc it with
  | (it2, some e) => (NextOutcome.err e, it2)
  | (it2, none) =>
    match it2.items with
    | [] => (NextOutcome.indexOutOfRange, it2)
    | x :: xs => (NextOutcome.ok x, { it2 with items := xs })

/-- `TaskIterator.Next` (auxiliary.go lines 98-106), the same generated
code at type `Task`. -/
def TaskIterator.Next
    (nextFunc : TaskIterator → TaskIterator × Option String)
    (it : TaskIterator) :
    NextOutcome Task × TaskIterator :=
  match nextFunc it with
  | (it2, some e) => (NextOutcome.err e, it2)
  | (it2, none) =>
    match it2.items with
    | [] => (NextOutcome.indexOutOfRange, it2)
    | x :: xs => (NextOutcome.ok x, { it2 with items := xs })

end Delivery

/-!
Concrete fixtures used by witness and counterexample theorems.
-/

namespace Impersonate

/-- Sample provider for instantiating universally quantified theorems. -/
def sampleProvider : impersonatedIDTokenProvider :=
  { client := { id := 0 }
    targetPrincipal := "sa@project-id.iam.gserviceaccount.com"
    audience := "https://example.com"
    includeEmail := false
    delegates := [] }

/-- A 200 response whose body is the JSON object with `token` set to
`abc123`. -/
def resp200abc : HTTPResponse :=
  { statusCode := 200
    rawBody := "\x7b\"token\":\"abc123\"\x7d"
    parsedBody := some (JValue.obj [("token", JValue.str "abc123")]) }

/-- Transport answering every request with `resp200abc`. -/
def transport200abc : OutboundRequest → Except String HTTPResponse :=
  fun _ => Except.ok resp200abc

/-- A 403 response with the plain-text body `permission denied` (not
valid JSON). -/
def resp403denied : HTTPResponse :=
  { statusCode := 403
    rawBody := "permission denied"
    parsedBody := none }

/-- Transport answering every request with `resp403denied`. -/
def transport403denied : OutboundRequest → Except String HTTPResponse :=
  fun _ => Except.ok resp403denied

/-- A 200 response whose body is the empty JSON object. -/
def respEmptyObj : HTTPResponse :=
  { statusCode := 200
    rawBody := "\x7b\x7d"
    parsedBody := some (JValue.obj []) }

/-- Transport answering every request with `respEmptyObj`. -/
def transportEmptyObj : OutboundRequest → Except String HTTPResponse :=
  fun _ => Except.ok respEmptyObj

/-- A 200 response whose body is not valid JSON. -/
def respBadJSON : HTTPResponse :=
  { statusCode := 200
    rawBody := "not json"
    parsedBody := none }

/-- Transport answering every request with `respBadJSON`. -/
def transportBadJSON : OutboundRequest → Except String HTTPResponse :=
  fun _ => Except.ok respBadJSON

/-- Environment in which both collaborator calls succeed. -/
def env0 : ConstructionEnv :=
  { detectDefault := Except.ok { universeDomain := "googleapis.com" }
    newClient := fun _ => Except.ok { id := 0 } }

/-- Environment in which default-credential detection fails. -/
def envDetectFails : ConstructionEnv :=
  { detectDefault := Except.error "credentials: could not find default credentials"
    newClient := fun _ => Except.ok { id := 0 } }

/-- Valid options (non-empty audience and target principal) with no
client and no credentials configured. -/
def optsValidNoClient : IDTokenOptions :=
  { Audience := "https://example.com"
    TargetPrincipal := "sa@project-id.iam.gserviceaccount.com"
    IncludeEmail := false
    Delegates := []
    Credentials := none
    Client := none }

/-- Valid options with a configured client. -/
def optsWithClient : IDTokenOptions :=
  { Audience := "https://example.com"
    TargetPrincipal := "sa@project-id.iam.gserviceaccount.com"
    IncludeEmail := true
    Delegates := ["d1@project-id.iam.gserviceaccount.com"]
    Credentials := none
    Client := some { id := 7 } }

/-- Options with an empty audience. -/
def optsEmptyAudience : IDTokenOptions :=
  { Audience := ""
    TargetPrincipal := "sa@project-id.iam.gserviceaccount.com"
    IncludeEmail := false
    Delegates := []
    Credentials := none
    Client := some { id := 7 } }

/-- Valid options whose target principal is a bare identity, with a
configured client. -/
def optsBareNames : IDTokenOptions :=
  { Audience := "https://example.com"
    TargetPrincipal := "sa@project-id.iam.gserviceaccount.com"
    IncludeEmail := false
    Delegates := []
    Credentials := none
    Client := some { id := 1 } }

end Impersonate

namespace Delivery

/-- A `nextFunc` that leaves one buffered vehicle and reports no
error. -/
def nfOneVehicle : DeliveryVehicleIterator → DeliveryVehicleIterator × Option String :=
  fun _ => ({ items := [{ name := "veh-1" }] }, none)

/-- A `nextFunc` that reports no error while leaving the task buffer
empty, violating the buffering precondition. -/
def nfEmptyTask : TaskIterator → TaskIterator × Option String :=
  fun _ => ({ items := [] }, none)

end Delivery

/-!
Theorems for the specification claims.
-/

/-- C1: for every fetch in which the HTTP exchange succeeds with a 2xx
status and the response body decodes as the expected JSON shape, the
Token operation returns a token whose value equals the decoded `token`
field of the response and whose expiry is the time of the successful
decode plus exactly one hour (3600 seconds), and returns no error. -/
theorem token_success_decoded_value_one_hour_expiry
    (i : Impersonate.impersonatedIDTokenProvider)
    (transport : Impersonate.OutboundRequest → Except String Impersonate.HTTPResponse)
    (resp : Impersonate.HTTPResponse) (now : Nat)
    (r : Impersonate.generateIDTokenResponse)
    (hresp : transport i.buildRequest = Except.ok resp)
    (h200 : 200 ≤ resp.statusCode) (h299 : resp.statusCode ≤ 299)
    (hdec : Impersonate.unmarshalGenerateIDTokenResponse resp.parsedBody = some r) :
    i.Token transport now = Except.ok { Value := r.Token, Expiry := now + 3600 } := by
  simp only [Impersonate.impersonatedIDTokenProvider.Token, hresp]
  rw [if_neg (by omega)]
  simp only [hdec]

/-- Witness for C1: with a transport answering 200 and the body
`\x7b"token":"abc123"\x7d`, the operation yields the token `abc123`
expiring one hour after time 0. -/
theorem token_success_decoded_value_one_hour_expiry_witness :
    Impersonate.impersonatedIDTokenProvider.Token Impersonate.sampleProvider
        Impersonate.transport200abc 0
      = Except.ok { Value := "abc123", Expiry := 3600 } :=
  token_success_decoded_value_one_hour_expiry Impersonate.sampleProvider
    Impersonate.transport200abc Impersonate.resp200abc 0 { Token := "abc123" }
    rfl (by decide) (by decide) (by decide)

/-- C3: for every fetch in which the HTTP exchange completes with a
status code outside the inclusive range 200-299, the Token operation
returns an error whose message carries the status code and the raw
response body, and returns no token. -/
theorem token_non2xx_error_has_status_and_body
    (i : Impersonate.impersonatedIDTokenProvider)
    (transport : Impersonate.OutboundRequest → Except String Impersonate.HTTPResponse)
    (resp : Impersonate.HTTPResponse) (now : Nat)
    (hresp : transport i.buildRequest = Except.ok resp)
    (hc : resp.statusCode < 200 ∨ resp.statusCode > 299) :
    i.Token transport now
      = Except.error ("impersonate: status code " ++ toString resp.statusCode
          ++ ": " ++ resp.rawBody) := by
  simp only [Impersonate.impersonatedIDTokenProvider.Token, hresp]
  rw [if_pos hc]

/-- Witness for C3: a 403 response with body `permission denied` yields
exactly the error message carrying the status code and the body, and no
token. -/
theorem token_non2xx_error_has_status_and_body_witness :
    Impersonate.impersonatedIDTokenProvider.Token Impersonate.sampleProvider
        Impersonate.transport403denied 0
      = Except.error "impersonate: status code 403: permission denied" :=
  token_non2xx_error_has_status_and_body Impersonate.sampleProvider
    Impersonate.transport403denied Impersonate.resp403denied 0 rfl (Or.inr (by decide))

/-- C7: for every fetch, the outbound request is a POST whose URL is the
fixed IAM-credentials service root followed by `/v1/`, the fully
qualified resource name of the target principal, and the literal suffix
`:generateIdToken`, and it carries the `Content-Type: application/json`
header. -/
theorem outbound_request_post_url_content_type
    (i : Impersonate.impersonatedIDTokenProvider) :
    i.buildRequest.method = "POST" ∧
    i.buildRequest.contentType = "application/json" ∧
    i.buildRequest.url
      = Impersonate.iamCredentialsEndpoint ++ "/v1/"
        ++ Impersonate.formatIAMServiceAccountName i.targetPrincipal
        ++ ":generateIdToken" :=
  ⟨rfl, rfl, rfl⟩

/-- C9: calling NewIDTokenCredentials with a nil options pointer returns
the error `impersonate: options must be provided` rather than reading
any field: the nil check in `validate` is the first case split, before
every field access, and construction returns that error for every
environment (so it never reaches a collaborator, let alone a nil
dereference). -/
theorem nil_options_error_before_field_access
    (env : Impersonate.ConstructionEnv) :
    Impersonate.IDTokenOptions.validate none
        = some "impersonate: options must be provided" ∧
    Impersonate.NewIDTokenCredentials env none
        = Except.error "impersonate: options must be provided" :=
  ⟨rfl, rfl⟩

/-- C10: for every iterator state in which `nextFunc` returns nil, `Next`
indexes the first buffered item: when the buffer left by `nextFunc` is
non-empty (here: is some `x :: xs`), `Next` totally returns the head `x`
and leaves exactly the tail `xs` (order preserved, length decreased by
one); when the buffer is empty, the indexing of `items[0]` is out of
bounds. Stated for both `DeliveryVehicleIterator` and `TaskIterator`. -/
theorem iterator_next_head_tail_or_out_of_range
    (nfD : Delivery.DeliveryVehicleIterator → Delivery.DeliveryVehicleIterator × Option String)
    (itD itD2 : Delivery.DeliveryVehicleIterator)
    (nfT : Delivery.TaskIterator → Delivery.TaskIterator × Option String)
    (itT itT2 : Delivery.TaskIterator)
    (hD : nfD itD = (itD2, none)) (hT : nfT itT = (itT2, none)) :
    ((∀ x xs, itD2.items = x :: xs →
        Delivery.DeliveryVehicleIterator.Next nfD itD
          = (Delivery.NextOutcome.ok x, { items := xs })) ∧
      (itD2.items = [] →
        (Delivery.DeliveryVehicleIterator.Next nfD itD).1
          = Delivery.NextOutcome.indexOutOfRange)) ∧
    ((∀ x xs, itT2.items = x :: xs →
        Delivery.TaskIterator.Next nfT itT
          = (Delivery.NextOutcome.ok x, { items := xs })) ∧
      (itT2.items = [] →
        (Delivery.TaskIterator.Next nfT itT).1
          = Delivery.NextOutcome.indexOutOfRange)) := by
  refine ⟨⟨?_, ?_⟩, ?_, ?_⟩
  · intro x xs hI
    simp only [Delivery.DeliveryVehicleIterator.Next, hD, hI]
  · intro hI
    simp only [Delivery.DeliveryVehicleIterator.Next, hD, hI]
  · intro x xs hI
    simp only [Delivery.TaskIterator.Next, hT, hI]
  · intro hI
    simp only [Delivery.TaskIterator.Next, hT, hI]

/-- Witness for C10: a `nextFunc` leaving one buffered vehicle makes
`Next` return that vehicle and an empty buffer; a `nextFunc` returning
nil over an empty task buffer makes `Next` hit the out-of-bounds
index. -/
theorem iterator_next_head_tail_or_out_of_range_witness :
    Delivery.DeliveryVehicleIterator.Next Delivery.nfOneVehicle { items := [] }
      = (Delivery.NextOutcome.ok { name := "veh-1" }, { items := [] }) ∧
    (Delivery.TaskIterator.Next Delivery.nfEmptyTask { items := [] }).1
      = Delivery.NextOutcome.indexOutOfRange :=
  ⟨(iterator_next_head_tail_or_out_of_range Delivery.nfOneVehicle { items := [] }
      { items := [{ name := "veh-1" }] } Delivery.nfEmptyTask { items := [] }
      { items := [] } rfl rfl).1.1 { name := "veh-1" } [] rfl,
   (iterator_next_head_tail_or_out_of_range Delivery.nfOneVehicle { items := [] }
      { items := [{ name := "veh-1" }] } Delivery.nfEmptyTask { items := [] }
      { items := [] } rfl rfl).2.2 rfl⟩

/-- C2 (amended): validation is checked first, for every environment
(hence before any network activity): an empty audience fails with the
audience validation error and an empty target principal fails with the
target validation error. A configuration with non-empty audience and
non-empty target principal succeeds whenever a client is supplied, and
when no client is supplied it fails exactly with the error of the
collaborator pipeline (credential detection / client construction) when
that pipeline fails. -/
theorem construction_validates_then_succeeds_when_client_resolves
    (env : Impersonate.ConstructionEnv) (o : Impersonate.IDTokenOptions) :
    (o.Audience = "" →
      Impersonate.NewIDTokenCredentials env (some o)
        = Except.error "impersonate: audience must be provided") ∧
    (o.Audience ≠ "" → o.TargetPrincipal = "" →
      Impersonate.NewIDTokenCredentials env (some o)
        = Except.error "impersonate: target service account must be provided") ∧
    (∀ cl, o.Audience ≠ "" → o.TargetPrincipal ≠ "" → o.Client = some cl →
      Impersonate.NewIDTokenCredentials env (some o)
        = Except.ok { tokenProvider := Impersonate.mkProvider o cl
                      universeDomainProvider :=
                        o.Credentials.map Impersonate.BaseCredentials.universeDomain }) ∧
    (∀ e, o.Audience ≠ "" → o.TargetPrincipal ≠ "" →
      Impersonate.resolveClient env o = Except.error e →
      Impersonate.NewIDTokenCredentials env (some o) = Except.error e) := by
  refine ⟨?_, ?_, ?_, ?_⟩
  · intro h
    simp [Impersonate.NewIDTokenCredentials, Impersonate.IDTokenOptions.validate, h]
  · intro h1 h2
    simp [Impersonate.NewIDTokenCredentials, Impersonate.IDTokenOptions.validate, h1, h2]
  · intro cl h1 h2 hcl
    simp [Impersonate.NewIDTokenCredentials, Impersonate.IDTokenOptions.validate,
      Impersonate.resolveClient, h1, h2, hcl]
  · intro e h1 h2 hrc
    simp [Impersonate.NewIDTokenCredentials, Impersonate.IDTokenOptions.validate, h1, h2, hrc]

/-- Counterexample for C2 as stated: options with non-empty audience and
non-empty target principal but no configured client, in an environment
in which default-credential detection fails, make construction fail, so
construction does not succeed for every such configuration. -/
theorem valid_options_with_failing_detection_fail_construction :
    Impersonate.optsValidNoClient.Audience ≠ "" ∧
    Impersonate.optsValidNoClient.TargetPrincipal ≠ "" ∧
    Impersonate.NewIDTokenCredentials Impersonate.envDetectFails
        (some Impersonate.optsValidNoClient)
      = Except.error "credentials: could not find default credentials" :=
  ⟨by decide, by decide, rfl⟩

/-- Witness for C2 (amended): with a configured client, valid options
construct successfully; an empty audience is rejected with the audience
validation error. -/
theorem construction_validates_witness :
    Impersonate.NewIDTokenCredentials Impersonate.env0 (some Impersonate.optsWithClient)
      = Except.ok { tokenProvider := Impersonate.mkProvider Impersonate.optsWithClient { id := 7 }
                    universeDomainProvider := none } ∧
    Impersonate.NewIDTokenCredentials Impersonate.env0 (some Impersonate.optsEmptyAudience)
      = Except.error "impersonate: audience must be provided" :=
  ⟨(construction_validates_then_succeeds_when_client_resolves Impersonate.env0
      Impersonate.optsWithClient).2.2.1 { id := 7 } (by decide) (by decide) rfl,
   (construction_validates_then_succeeds_when_client_resolves Impersonate.env0
      Impersonate.optsEmptyAudience).1 rfl⟩

/-- C4: for every configuration, the JSON body built for the provider
constructed from the options contains `audience` (the configured
audience), `includeEmail` (the configured boolean), and `delegates` as
the caller-supplied delegate list in the caller-supplied order with
each entry passed through the resource-name normalizer, the `delegates`
member being omitted when the caller-supplied list is empty. -/
theorem request_body_audience_email_ordered_delegates
    (o : Impersonate.IDTokenOptions) (cl : Impersonate.HTTPClient) :
    (Impersonate.mkProvider o cl).buildRequest.body
      = [("audience", Impersonate.JValue.str o.Audience),
         ("includeEmail", Impersonate.JValue.bool o.IncludeEmail)]
        ++ (if o.Delegates.isEmpty then []
            else [("delegates", Impersonate.JValue.arr
                (o.Delegates.map (fun d =>
                  Impersonate.JValue.str (Impersonate.formatIAMServiceAccountName d))))]) := by
  rcases hd : o.Delegates with _ | ⟨d, ds⟩ <;>
    simp [Impersonate.mkProvider, Impersonate.impersonatedIDTokenProvider.buildRequest,
      Impersonate.generateIDTokenRequest.marshal, hd]

/-- Counterexample for C5 as stated: for a concrete construction, the
provider stores the target principal exactly as configured, not in
normalized form (the two differ), while the URL of the outbound request
assembled by the Token operation contains the normalized form — so the
normalizer is not applied to the target principal at construction time
but on each fetch, inside the Token operation. -/
theorem target_principal_not_normalized_at_construction :
    Impersonate.NewIDTokenCredentials Impersonate.env0 (some Impersonate.optsBareNames)
      = Except.ok { tokenProvider := Impersonate.mkProvider Impersonate.optsBareNames { id := 1 }
                    universeDomainProvider := none } ∧
    (Impersonate.mkProvider Impersonate.optsBareNames { id := 1 }).targetPrincipal
      ≠ Impersonate.formatIAMServiceAccountName Impersonate.optsBareNames.TargetPrincipal ∧
    (Impersonate.mkProvider Impersonate.optsBareNames { id := 1 }).buildRequest.url
      = Impersonate.iamCredentialsEndpoint ++ "/v1/"
        ++ Impersonate.formatIAMServiceAccountName Impersonate.optsBareNames.TargetPrincipal
        ++ ":generateIdToken" :=
  ⟨rfl, by decide, rfl⟩

/-- C5 (amended): the same normalizer is used for the target principal
and for every delegate entry, but at different moments: the delegates
are normalized once at provider construction time and stored, while the
target principal is stored exactly as configured and the normalizer is
applied to it inside the Token operation, on every fetch, when the
request URL is assembled. -/
theorem normalizer_delegates_at_construction_target_per_fetch
    (o : Impersonate.IDTokenOptions) (cl : Impersonate.HTTPClient) :
    (Impersonate.mkProvider o cl).delegates
      = o.Delegates.map Impersonate.formatIAMServiceAccountName ∧
    (Impersonate.mkProvider o cl).targetPrincipal = o.TargetPrincipal ∧
    (Impersonate.mkProvider o cl).buildRequest.url
      = Impersonate.iamCredentialsEndpoint ++ "/v1/"
        ++ Impersonate.formatIAMServiceAccountName o.TargetPrincipal
        ++ ":generateIdToken" :=
  ⟨rfl, rfl, rfl⟩

/-- Counterexample for C6 as stated: a 2xx response whose body is the
empty JSON object — which is not of the expected shape, having no
`token` member that is a string — does not make the Token operation
fail: it returns a token with the empty string as value, because the
Go unmarshalling of a valid JSON object without the `token` member
succeeds and leaves the zero value. -/
theorem token_produced_from_body_without_token_member :
    Impersonate.matchesSpecTokenShape (Impersonate.JValue.obj []) = false ∧
    Impersonate.respEmptyObj.statusCode = 200 ∧
    Impersonate.respEmptyObj.parsedBody = some (Impersonate.JValue.obj []) ∧
    Impersonate.impersonatedIDTokenProvider.Token Impersonate.sampleProvider
        Impersonate.transportEmptyObj 0
      = Except.ok { Value := "", Expiry := 3600 } :=
  ⟨rfl, rfl, rfl, rfl⟩

/-- C6 (amended): for a fetch with a 2xx status, the Token operation
fails with the decode error exactly when the unmarshalling of the body
fails (body not valid JSON, a `token` member that is neither a string
nor null, or a top-level value that is neither an object nor null), and
returns no token then; when the unmarshalling succeeds — which includes
a valid JSON object without a `token` member, yielding the empty-string
value — it returns the decoded token. -/
theorem token_2xx_decode_outcomes
    (i : Impersonate.impersonatedIDTokenProvider)
    (transport : Impersonate.OutboundRequest → Except String Impersonate.HTTPResponse)
    (resp : Impersonate.HTTPResponse) (now : Nat)
    (hresp : transport i.buildRequest = Except.ok resp)
    (h200 : 200 ≤ resp.statusCode) (h299 : resp.statusCode ≤ 299) :
    (Impersonate.unmarshalGenerateIDTokenResponse resp.parsedBody = none →
      i.Token transport now = Except.error "impersonate: unable to parse response") ∧
    (∀ r, Impersonate.unmarshalGenerateIDTokenResponse resp.parsedBody = some r →
      i.Token transport now = Except.ok { Value := r.Token, Expiry := now + 3600 }) := by
  constructor
  · intro hdec
    simp only [Impersonate.impersonatedIDTokenProvider.Token, hresp]
    rw [if_neg (by omega)]
    simp only [hdec]
  · intro r hdec
    simp only [Impersonate.impersonatedIDTokenProvider.Token, hresp]
    rw [if_neg (by omega)]
    simp only [hdec]

/-- Witness for C6 (amended): a 200 response whose body is not valid
JSON makes the Token operation fail with the decode error. -/
theorem token_2xx_decode_outcomes_witness :
    Impersonate.impersonatedIDTokenProvider.Token Impersonate.sampleProvider
        Impersonate.transportBadJSON 0
      = Except.error "impersonate: unable to parse response" :=
  (token_2xx_decode_outcomes Impersonate.sampleProvider Impersonate.transportBadJSON
    Impersonate.respBadJSON 0 rfl (by decide) (by decide)).1 rfl
